import Mathlib

/-!
Verification development for the Hanvon userspace tablet driver
(`hanvon-libusb.c`).  The definitions below are a shallow embedding of the
packet decoder (`report_buttons`, the switch body of `callback_default`),
the device-profile data (`find_device` together with the per-product tables
of `init_ctrl`), and the hotplug session state machine
(`hotplug_callback`).  Bytes are modelled as `Nat`, the wheel position as a
`Nat`, deltas as `Int`, and event emission as an explicit list of semantic
events in emission order.
-/

namespace Hanvon

/-- Pen tool kind reported via `BTN_TOOL_PEN` / `BTN_TOOL_RUBBER`. -/
inductive Tool where
  | pen
  | eraser
  deriving DecidableEq, Repr

/-- Axes used by the driver: absolute X/Y/pressure/tilt and the relative
wheel (`REL_WHEEL`). -/
inductive Axis where
  | absX
  | absY
  | absPressure
  | absTiltX
  | absTiltY
  | relWheel
  deriving DecidableEq, Repr

/-- Semantic input event, the unit written to the uinput sink.  Tablet
buttons `BTN_0 .. BTN_7` are represented by `button` with indices `0 .. 7`;
`stylusButton 0` stands for `BTN_STYLUS`; `syncBatchEnd` stands for the
`SYN_REPORT` batch terminator. -/
inductive SemanticEvent where
  | toolState (tool : Tool) (active : Bool)
  | touch (pressed : Bool)
  | stylusButton (index : Nat) (pressed : Bool)
  | absAxis (axis : Axis) (value : Nat)
  | relAxis (axis : Axis) (delta : Int)
  | button (index : Nat) (pressed : Bool)
  | syncBatchEnd
  deriving DecidableEq, Repr

/-- Outcome of decoding one packet: success, a truncated packet (the
too-short `break`s of `callback_default`), or an unknown first byte (the
`default:` arm). -/
inductive DecodeResult where
  | ok
  | tooShort
  | unknownMessageType (byte0 : Nat)
  deriving DecidableEq, Repr

/-- Array `lbuttons[] = {BTN_0,BTN_1,BTN_2,BTN_3}` as button indices 0-3. -/
def lbuttons : List Nat := [0, 1, 2, 3]

/-- Array `rbuttons[] = {BTN_4,BTN_5,BTN_6,BTN_7}` as button indices 4-7. -/
def rbuttons : List Nat := [4, 5, 6, 7]

/-- Embedding of `report_buttons` (hanvon-libusb.c lines 194-238): given
the button-code array, the current `g_wheel_position` and the data byte, it
returns the emitted events and the new `g_wheel_position`.
If `(data & 0xf0) == 0xa0` it reports buttons at array indices 1..3 from
bits 0x02/0x04/0x08 (guarded by the array length); else if `data <= 0x3f`
it treats `data` as a wheel position: `delta = data - g_wheel_position`,
wrap-corrected by `±0x40` when `abs(delta) > 0x3f / 2`, reported (and the
position stored) only when the delta is non-zero. -/
def report_buttons (buttons : List Nat) (wheel : Nat) (data : Nat) :
    List SemanticEvent × Nat :=
  if data &&& 0xf0 = 0xa0 then
    ((if 1 < buttons.length then
        [SemanticEvent.button (buttons.getD 1 0) (data &&& 0x02 ≠ 0)] else []) ++
     (if 2 < buttons.length then
        [SemanticEvent.button (buttons.getD 2 0) (data &&& 0x04 ≠ 0)] else []) ++
     (if 3 < buttons.length then
        [SemanticEvent.button (buttons.getD 3 0) (data &&& 0x08 ≠ 0)] else []),
     wheel)
  else if data ≤ 0x3f then
    let delta : Int := (data : Int) - (wheel : Int)
    let delta : Int :=
      if (0x3f / 2 : Nat) < delta.natAbs then
        (if 0 < delta then delta - 0x40 else delta + 0x40)
      else delta
    if delta ≠ 0 then
      ([SemanticEvent.relAxis Axis.relWheel delta], data)
    else
      ([], wheel)
  else
    ([], wheel)

/-- The `BUTTON_EVENT_GP` case arm (lines 273-287): the left side
(`data[1] == 0x55`, data byte `data[2]`) is decoded against `lbuttons`,
then the right side (`data[3] == 0xAA`, data byte `data[4]`) against
`rbuttons`, threading `g_wheel_position` through both calls. -/
def decode_gp (wheel : Nat) (packet : List Nat) : List SemanticEvent × Nat :=
  let rl :=
    if packet.getD 1 0 = 0x55 then
      report_buttons lbuttons wheel (packet.getD 2 0)
    else ([], wheel)
  let rr :=
    if packet.getD 3 0 = 0xAA then
      report_buttons rbuttons rl.2 (packet.getD 4 0)
    else ([], rl.2)
  (rl.1 ++ rr.1, rr.2)

/-- The `PEN_EVENT` case arm (lines 289-360): a tool-state report from
status byte `data[1]`, the absolute axes gated on the proximity bits
`0x80 | 0x10 | 0x01`, then the touch and stylus-button reports. -/
def decode_pen (packet : List Nat) : List SemanticEvent :=
  let status := packet.getD 1 0
  let toolActive := status &&& (0x80 ||| 0x10 ||| 0x01) ≠ 0
  let tool := if status &&& 0x20 ≠ 0 then Tool.eraser else Tool.pen
  let absEvents :=
    if toolActive then
      [SemanticEvent.absAxis Axis.absX
         ((packet.getD 2 0) <<< 8 ||| packet.getD 3 0),
       SemanticEvent.absAxis Axis.absY
         ((packet.getD 4 0) <<< 8 ||| packet.getD 5 0),
       SemanticEvent.absAxis Axis.absPressure
         (((packet.getD 6 0) <<< 8 ||| packet.getD 7 0) >>> 6),
       SemanticEvent.absAxis Axis.absTiltX (packet.getD 8 0),
       SemanticEvent.absAxis Axis.absTiltY (packet.getD 9 0)]
    else []
  SemanticEvent.toolState tool toolActive ::
    (absEvents ++
     [SemanticEvent.touch (status &&& 0x01 ≠ 0),
      SemanticEvent.stylusButton 0 (status &&& 0x02 ≠ 0)])

/-- The `BUTTON_EVENT_0906` case arm (lines 362-381): buttons 0-3 from
bits `0x01`/`0x02`/`0x04`/`0x08` of `data[3]`; the `0x10`-`0x80` bits are
present in the source only as commented-out code and are not decoded. -/
def decode_0906 (packet : List Nat) : List SemanticEvent :=
  let d3 := packet.getD 3 0
  [SemanticEvent.button 0 (d3 &&& 0x01 ≠ 0),
   SemanticEvent.button 1 (d3 &&& 0x02 ≠ 0),
   SemanticEvent.button 2 (d3 &&& 0x04 ≠ 0),
   SemanticEvent.button 3 (d3 &&& 0x08 ≠ 0)]

/-- Embedding of the message-type switch of `callback_default`
(hanvon-libusb.c lines 272-387): takes the current `g_wheel_position` and
the packet bytes, returns the decode outcome, the events emitted by the
switch body (the trailing `SYN_REPORT` is added by `callback_default`),
and the new `g_wheel_position`. -/
def decode (wheel : Nat) (packet : List Nat) :
    DecodeResult × List SemanticEvent × Nat :=
  if packet.length < 1 then
    (DecodeResult.tooShort, [], wheel)
  else if packet.getD 0 0 = 0x01 then
    if packet.length < 5 then (DecodeResult.tooShort, [], wheel)
    else (DecodeResult.ok, decode_gp wheel packet)
  else if packet.getD 0 0 = 0x02 then
    if packet.length < 10 then (DecodeResult.tooShort, [], wheel)
    else (DecodeResult.ok, decode_pen packet, wheel)
  else if packet.getD 0 0 = 0x0C then
    if packet.length < 4 then (DecodeResult.tooShort, [], wheel)
    else (DecodeResult.ok, decode_0906 packet, wheel)
  else
    (DecodeResult.unknownMessageType (packet.getD 0 0), [], wheel)

/-- Embedding of the completed-transfer path of `callback_default`
(hanvon-libusb.c lines 242-411).  `running` stands for `g_running`,
`udPresent` for `tx->user_data != NULL`, `devPresent` for
`g_dev_handle != NULL`.  Returns the events written to the sink (the
switch events followed by `SYN_REPORT` whenever the sink is present and at
least one byte arrived), the new `g_wheel_position`, and whether the
transfer is resubmitted (`g_running && g_dev_handle != NULL`, reached by
every branch of the callback). -/
def callback_default (running udPresent devPresent : Bool) (wheel : Nat)
    (packet : List Nat) : List SemanticEvent × Nat × Bool :=
  if udPresent = false then
    ([], wheel, running && devPresent)
  else if packet.length < 1 then
    ([], wheel, running && devPresent)
  else
    let r := decode wheel packet
    (r.2.1 ++ [SemanticEvent.syncBatchEnd], r.2.2, running && devPresent)

/-! ### Device profile table -/

def VENDOR_ID_HANVON : Nat := 0x0b57
def PRODUCT_ID_AM3M : Nat := 0x8528
def PRODUCT_ID_AM0806 : Nat := 0x8502
def PRODUCT_ID_AM0605 : Nat := 0x8503
def PRODUCT_ID_AM1107 : Nat := 0x8505
def PRODUCT_ID_AM1209 : Nat := 0x8501
def PRODUCT_ID_RL0604 : Nat := 0x851f
def PRODUCT_ID_RL0504 : Nat := 0x851d
def PRODUCT_ID_GP0806 : Nat := 0x8039
def PRODUCT_ID_GP0806B : Nat := 0x8511
def PRODUCT_ID_GP0605 : Nat := 0x8512
def PRODUCT_ID_GP0605A : Nat := 0x803a
def PRODUCT_ID_GP0504 : Nat := 0x8037
def PRODUCT_ID_NXS1513 : Nat := 0x8030
def PRODUCT_ID_GP0906 : Nat := 0x8521
def PRODUCT_ID_APPIV0906 : Nat := 0x8532

/-- Button layout of a profile, read off the `EV_KEY` enabling switch of
`init_ctrl` (lines 516-577): four left buttons, eight split buttons
(AM1107/AM1209), or the APPIV0906 mixed layout. -/
inductive ButtonSet where
  | fourLeft
  | eightSplit
  | nineMixed
  deriving DecidableEq, Repr

/-- Static per-product metadata, read off the axis/name configuration of
`init_ctrl` (lines 444-598). -/
structure DeviceProfile where
  displayName : String
  maxX : Nat
  maxY : Nat
  maxPressure : Nat
  maxTiltX : Nat
  maxTiltY : Nat
  buttonSet : ButtonSet
  deriving DecidableEq, Repr

/-- The supported-product switch of `find_device` (lines 156-178): true
exactly for the fifteen known product IDs. -/
def supported_product (productId : Nat) : Bool :=
  if productId = PRODUCT_ID_AM3M then true
  else if productId = PRODUCT_ID_AM0806 then true
  else if productId = PRODUCT_ID_AM0605 then true
  else if productId = PRODUCT_ID_AM1107 then true
  else if productId = PRODUCT_ID_AM1209 then true
  else if productId = PRODUCT_ID_RL0604 then true
  else if productId = PRODUCT_ID_RL0504 then true
  else if productId = PRODUCT_ID_GP0806 then true
  else if productId = PRODUCT_ID_GP0806B then true
  else if productId = PRODUCT_ID_GP0605 then true
  else if productId = PRODUCT_ID_GP0605A then true
  else if productId = PRODUCT_ID_GP0504 then true
  else if productId = PRODUCT_ID_NXS1513 then true
  else if productId = PRODUCT_ID_GP0906 then true
  else if productId = PRODUCT_ID_APPIV0906 then true
  else false

/-- Display name switch of `init_ctrl` (lines 580-598). -/
def device_name (productId : Nat) : String :=
  if productId = PRODUCT_ID_NXS1513 then "Hanvon Nilox NXS1513"
  else if productId = PRODUCT_ID_GP0504 then "Hanvon Graphicpal 0504"
  else if productId = PRODUCT_ID_GP0806 then "Hanvon Graphicpal 0806"
  else if productId = PRODUCT_ID_GP0605A then "Hanvon Graphicpal 0605A"
  else if productId = PRODUCT_ID_AM1209 then "Hanvon ArtMaster AM1209"
  else if productId = PRODUCT_ID_AM0806 then "Hanvon ArtMaster AM0806"
  else if productId = PRODUCT_ID_AM0605 then "Hanvon ArtMaster AM0605"
  else if productId = PRODUCT_ID_AM1107 then "Hanvon Art Master AM1107"
  else if productId = PRODUCT_ID_GP0806B then "Hanvon Graphicpal 0806B"
  else if productId = PRODUCT_ID_GP0605 then "Hanvon Graphicpal 0605"
  else if productId = PRODUCT_ID_RL0504 then "Hanvon Rollick 0504"
  else if productId = PRODUCT_ID_RL0604 then "Hanvon Rollick 0604"
  else if productId = PRODUCT_ID_GP0906 then "Hanvon Graphicpal 0906"
  else if productId = PRODUCT_ID_AM3M then "Hanvon Art Master III"
  else if productId = PRODUCT_ID_APPIV0906 then "Hanvon Art Painter Pro APPIV0906"
  else "Hanvon Tablet (Unknown Model)"

/-- Button layout switch of `init_ctrl` (lines 516-577). -/
def device_button_set (productId : Nat) : ButtonSet :=
  if productId = PRODUCT_ID_AM1107 then ButtonSet.eightSplit
  else if productId = PRODUCT_ID_AM1209 then ButtonSet.eightSplit
  else if productId = PRODUCT_ID_APPIV0906 then ButtonSet.nineMixed
  else ButtonSet.fourLeft

/-- Profile data of one supported product, from the axis setup of
`init_ctrl` (lines 470-503: X/Y maxima are APPIV-specific, pressure max
`AM_MAX_PRESSURE`, tilt maxima `AM_MAX_TILT_X`/`AM_MAX_TILT_Y`). -/
def profile_of (productId : Nat) : DeviceProfile :=
  { displayName := device_name productId
    maxX := if productId = PRODUCT_ID_APPIV0906 then 0x5750 else 0x27DE
    maxY := if productId = PRODUCT_ID_APPIV0906 then 0x3692 else 0x1CFE
    maxPressure := 0x400
    maxTiltX := 0x3F
    maxTiltY := 0x7F
    buttonSet := device_button_set productId }

/-- Device-profile lookup: the vendor check and product switch of
`find_device` (lines 155-178) combined with the per-product tables of
`init_ctrl`.  Returns a profile exactly for the Hanvon vendor ID and a
supported product ID. -/
def lookup (vendorId productId : Nat) : Option DeviceProfile :=
  if vendorId = VENDOR_ID_HANVON ∧ supported_product productId then
    some (profile_of productId)
  else
    none

/-- The fifteen supported product IDs, in the order of the `find_device`
switch. -/
def knownProductIds : List Nat :=
  [PRODUCT_ID_AM3M, PRODUCT_ID_AM0806, PRODUCT_ID_AM0605, PRODUCT_ID_AM1107,
   PRODUCT_ID_AM1209, PRODUCT_ID_RL0604, PRODUCT_ID_RL0504, PRODUCT_ID_GP0806,
   PRODUCT_ID_GP0806B, PRODUCT_ID_GP0605, PRODUCT_ID_GP0605A, PRODUCT_ID_GP0504,
   PRODUCT_ID_NXS1513, PRODUCT_ID_GP0906, PRODUCT_ID_APPIV0906]

/-! ### Hotplug session state machine -/

/-- The global session state of the driver: `g_dev_handle` (modelled as the
identity of the opened device), `g_evdev`, `g_uidev`, `g_tx` (presence
flags), and `g_wheel_position`. -/
structure GlobalState where
  devHandle : Option Nat
  evdev : Bool
  uidev : Bool
  tx : Bool
  wheelPosition : Nat
  deriving DecidableEq, Repr

/-- Outcomes of the external calls made during an Arrival, one flag per
acquisition sub-step of `hotplug_callback` (lines 646-763). -/
structure ArrivalEnv where
  supported : Bool
  openOk : Bool
  kernelActive : Bool
  kernelCheckErr : Bool
  detachOk : Bool
  claimOk : Bool
  initCtrlOk : Bool
  allocOk : Bool
  submitOk : Bool
  deriving DecidableEq, Repr

/-- Hotplug event kind. -/
inductive HotplugEvent where
  | arrived
  | left
  deriving DecidableEq, Repr

/-- Embedding of `init_ctrl` (lines 414-618) at the state level: it resets
`g_wheel_position` to 0 first (line 422), then either succeeds, creating
the evdev and uinput devices, or fails leaving both unset.  Returns the
new state and whether it succeeded. -/
def init_ctrl (ok : Bool) (s : GlobalState) : GlobalState × Bool :=
  let s := { s with wheelPosition := 0 }
  if ok then
    ({ s with evdev := true, uidev := true }, true)
  else
    ({ s with evdev := false, uidev := false }, false)

/-- Whether the kernel-driver hand-off of the Arrival path (lines 672-687)
succeeds: if the kernel driver is active it must detach successfully;
otherwise the status query must not report a hard error. -/
def kernel_handoff_ok (env : ArrivalEnv) : Bool :=
  if env.kernelActive then env.detachOk else !env.kernelCheckErr

/-- Embedding of `hotplug_callback` (lines 630-823).  `dev` is the identity
of the device named by the event.  Returns the new global state and the
callback's return value (always 0: hotplug handling is non-fatal and the
event loop keeps running).

Arrival: a no-op when a session is already active or the product is
unsupported; otherwise open, kernel hand-off, claim, `init_ctrl`, transfer
allocation and first submission, each failure rolling back the already
acquired resources (lines 664-763).  Departure: a no-op unless the leaving
device is the one backing the active handle; otherwise frees the transfer,
destroys the sink, releases the interface and closes the handle
(lines 765-817). -/
def hotplug_callback (env : ArrivalEnv) (event : HotplugEvent) (dev : Nat)
    (s : GlobalState) : GlobalState × Int :=
  match event with
  | HotplugEvent.arrived =>
    if s.devHandle.isSome then (s, 0)
    else if !env.supported then (s, 0)
    else if !env.openOk then ({ s with devHandle := none }, 0)
    else
      let s1 := { s with devHandle := some dev }
      if !kernel_handoff_ok env then
        ({ s1 with devHandle := none }, 0)
      else if !env.claimOk then
        ({ s1 with devHandle := none }, 0)
      else
        let (s2, ok) := init_ctrl env.initCtrlOk s1
        if !ok then
          ({ s2 with devHandle := none, evdev := false, uidev := false }, 0)
        else if !env.allocOk then
          ({ s2 with devHandle := none, evdev := false, uidev := false }, 0)
        else
          let s3 := { s2 with tx := true }
          if !env.submitOk then
            ({ s3 with devHandle := none, evdev := false, uidev := false,
                       tx := false }, 0)
          else
            (s3, 0)
  | HotplugEvent.left =>
    match s.devHandle with
    | some d =>
      if d = dev then
        ({ s with devHandle := none, evdev := false, uidev := false,
                  tx := false }, 0)
      else (s, 0)
    | none => (s, 0)

/-! ### Helper definitions and lemmas -/

/-- Big-endian assembly: shifting a high byte and or-ing in a low byte
below 256 is the same as the arithmetic value `hi * 256 + lo`. -/
theorem shiftLeft_lor_eq_add (a b : Nat) (h : b < 256) :
    a <<< 8 ||| b = a * 256 + b := by
  apply Nat.eq_of_testBit_eq
  intro j
  have hb : b < 2 ^ 8 := by omega
  have hsum : a * 256 + b = 2 ^ 8 * a + b := by ring
  rw [hsum, Nat.testBit_mul_pow_two_add a hb j, Nat.testBit_or,
    Nat.testBit_shiftLeft]
  by_cases hj : j < 8
  · simp [hj, Nat.not_le.mpr hj]
  · have h8 : 8 ≤ j := Nat.le_of_not_lt hj
    have hbj : b.testBit j = false := by
      apply Nat.testBit_lt_two_pow
      calc b < 2 ^ 8 := hb
        _ ≤ 2 ^ j := Nat.pow_le_pow_right (by omega) h8
    simp [hj, h8, hbj]

/-- Wheel delta as the code computes it: raw difference, wrap-corrected by
`±0x40` exactly when its absolute value is at least `0x20` (the code's
condition `abs(delta) > 0x3f / 2`). -/
def wheelDeltaSpec (prev b : Nat) : Int :=
  let d : Int := (b : Int) - (prev : Int)
  if 0x20 ≤ d.natAbs then (if 0 < d then d - 0x40 else d + 0x40) else d

/-- Wheel delta as the claim words it: wrap correction applied exactly
when the absolute raw difference strictly exceeds `0x20`. -/
def wheelDeltaClaim (prev b : Nat) : Int :=
  let d : Int := (b : Int) - (prev : Int)
  if 0x20 < d.natAbs then (if 0 < d then d - 0x40 else d + 0x40) else d

set_option maxHeartbeats 4000000 in
/-- Characterization of decoding a left-marker wheel packet for every pair
of 6-bit wheel positions: the emitted delta follows `wheelDeltaSpec`, the
event is omitted when the delta is zero, and the stored position ends at
the packet byte. -/
theorem decode_wheel_packet : ∀ prev < 64, ∀ b < 64,
    decode prev [0x01, 0x55, b, 0, 0] =
      (DecodeResult.ok,
       if wheelDeltaSpec prev b = 0 then []
       else [SemanticEvent.relAxis Axis.relWheel (wheelDeltaSpec prev b)],
       b) := by decide

/-- On a null sink handle the callback writes nothing and leaves the wheel
position alone. -/
theorem callback_default_no_sink (r d : Bool) (w : Nat) (p : List Nat) :
    callback_default r false d w p = ([], w, r && d) := rfl

/-- On an empty packet the callback writes nothing. -/
theorem callback_default_empty (w : Nat) (p : List Nat) (h : p.length < 1) :
    callback_default true true true w p = ([], w, true) := by
  unfold callback_default
  rw [if_neg (by simp), if_pos h]
  rfl

/-- On a non-empty packet the callback writes the switch events followed
by the batch terminator. -/
theorem callback_default_run (w : Nat) (p : List Nat) (h : 1 ≤ p.length) :
    callback_default true true true w p =
      ((decode w p).2.1 ++ [SemanticEvent.syncBatchEnd],
       (decode w p).2.2, true) := by
  unfold callback_default
  rw [if_neg (by simp), if_neg (by omega)]
  rfl

/-- The button/wheel helper never emits a batch terminator. -/
theorem sync_not_mem_rb (btns : List Nat) (w d : Nat) :
    SemanticEvent.syncBatchEnd ∉ (report_buttons btns w d).1 := by
  unfold report_buttons
  split_ifs <;>
    first
      | (simp; done)
      | (rw [apply_ite Prod.fst]; split <;> simp)

/-- The general-button arm never emits a batch terminator. -/
theorem sync_not_mem_gp (w : Nat) (p : List Nat) :
    SemanticEvent.syncBatchEnd ∉ (decode_gp w p).1 := by
  unfold decode_gp
  simp only [List.mem_append, not_or]
  constructor <;> (split <;> simp [sync_not_mem_rb])

/-- The pen arm never emits a batch terminator. -/
theorem sync_not_mem_pen (p : List Nat) :
    SemanticEvent.syncBatchEnd ∉ decode_pen p := by
  unfold decode_pen
  simp only [List.mem_cons, List.mem_append, not_or]
  refine ⟨by simp, ?_, by simp⟩
  split <;> simp

/-- The decoder switch itself never emits a batch terminator; the single
one per batch comes from the callback epilogue. -/
theorem sync_not_mem_decode (w : Nat) (p : List Nat) :
    SemanticEvent.syncBatchEnd ∉ (decode w p).2.1 := by
  unfold decode
  split_ifs <;> simp [sync_not_mem_gp, sync_not_mem_pen, decode_0906]

/-- A product accepted by the support switch is one of the known IDs. -/
theorem mem_of_supported (pid : Nat) (h : supported_product pid = true) :
    pid ∈ knownProductIds := by
  by_cases h1 : pid = PRODUCT_ID_AM3M
  · rw [h1]; decide
  by_cases h2 : pid = PRODUCT_ID_AM0806
  · rw [h2]; decide
  by_cases h3 : pid = PRODUCT_ID_AM0605
  · rw [h3]; decide
  by_cases h4 : pid = PRODUCT_ID_AM1107
  · rw [h4]; decide
  by_cases h5 : pid = PRODUCT_ID_AM1209
  · rw [h5]; decide
  by_cases h6 : pid = PRODUCT_ID_RL0604
  · rw [h6]; decide
  by_cases h7 : pid = PRODUCT_ID_RL0504
  · rw [h7]; decide
  by_cases h8 : pid = PRODUCT_ID_GP0806
  · rw [h8]; decide
  by_cases h9 : pid = PRODUCT_ID_GP0806B
  · rw [h9]; decide
  by_cases h10 : pid = PRODUCT_ID_GP0605
  · rw [h10]; decide
  by_cases h11 : pid = PRODUCT_ID_GP0605A
  · rw [h11]; decide
  by_cases h12 : pid = PRODUCT_ID_GP0504
  · rw [h12]; decide
  by_cases h13 : pid = PRODUCT_ID_NXS1513
  · rw [h13]; decide
  by_cases h14 : pid = PRODUCT_ID_GP0906
  · rw [h14]; decide
  by_cases h15 : pid = PRODUCT_ID_APPIV0906
  · rw [h15]; decide
  exfalso
  unfold supported_product at h
  rw [if_neg h1, if_neg h2, if_neg h3, if_neg h4, if_neg h5, if_neg h6,
    if_neg h7, if_neg h8, if_neg h9, if_neg h10, if_neg h11, if_neg h12,
    if_neg h13, if_neg h14, if_neg h15] at h
  exact Bool.false_ne_true h

/-- The Empty session state (all handles null) with a given leftover wheel
position. -/
def emptyState (w : Nat) : GlobalState :=
  { devHandle := none, evdev := false, uidev := false, tx := false,
    wheelPosition := w }

/-- An arrival environment where every acquisition sub-step succeeds. -/
def envAllOk : ArrivalEnv :=
  { supported := true, openOk := true, kernelActive := true,
    kernelCheckErr := false, detachOk := true, claimOk := true,
    initCtrlOk := true, allocOk := true, submitOk := true }

/-! ### Claims -/

/-- C1 counterexample: the claim's first concrete instance asserts that
decoding the pen packet with status byte 0x81 yields StylusButton(0,true),
but bit 0x02 of 0x81 is clear, so the code emits StylusButton(0,false) and
never StylusButton(0,true). -/
theorem C1_counterexample :
    SemanticEvent.stylusButton 0 true ∉
      (callback_default true true true 0
        [0x02, 0x81, 0x01, 0x02, 0x00, 0x10, 0x04, 0x00, 0x05, 0x06]).1 ∧
    SemanticEvent.stylusButton 0 false ∈
      (callback_default true true true 0
        [0x02, 0x81, 0x01, 0x02, 0x00, 0x10, 0x04, 0x00, 0x05, 0x06]).1 := by
  decide

/-- C1 (amended): for every 10-byte pen packet the callback emits, in
order, a ToolState event (eraser iff status bit 0x20, active iff any of
bits 0x80/0x10/0x01), then — exactly when that tool-active predicate
holds — AbsX/AbsY as big-endian 16-bit values, AbsPressure as the
big-endian 16-bit value shifted right by 6, AbsTiltX/AbsTiltY from bytes
8/9, then always Touch(bit 0x01) and StylusButton(0, bit 0x02), terminated
by exactly one SyncBatchEnd; the wheel position is untouched. -/
theorem C1_pen_packet (w s x1 x2 y1 y2 p1 p2 t1 t2 : Nat)
    (hx2 : x2 < 256) (hy2 : y2 < 256) (hp2 : p2 < 256) :
    callback_default true true true w [0x02, s, x1, x2, y1, y2, p1, p2, t1, t2] =
      (SemanticEvent.toolState
          (if s &&& 0x20 ≠ 0 then Tool.eraser else Tool.pen)
          (s &&& 0x91 ≠ 0) ::
        ((if s &&& 0x91 ≠ 0 then
            [SemanticEvent.absAxis Axis.absX (x1 * 256 + x2),
             SemanticEvent.absAxis Axis.absY (y1 * 256 + y2),
             SemanticEvent.absAxis Axis.absPressure ((p1 * 256 + p2) / 2 ^ 6),
             SemanticEvent.absAxis Axis.absTiltX t1,
             SemanticEvent.absAxis Axis.absTiltY t2]
          else []) ++
         [SemanticEvent.touch (s &&& 0x01 ≠ 0),
          SemanticEvent.stylusButton 0 (s &&& 0x02 ≠ 0),
          SemanticEvent.syncBatchEnd]),
       w, true) := by
  have h145 : (0x80 ||| 0x10 ||| 0x01 : Nat) = 0x91 := rfl
  simp only [callback_default, decode, decode_pen, h145]
  norm_num [shiftLeft_lor_eq_add x1 x2 hx2, shiftLeft_lor_eq_add y1 y2 hy2,
    shiftLeft_lor_eq_add p1 p2 hp2, Nat.shiftRight_eq_div_pow]

/-- C1 witness: the claim's proximity-plus-touch vector, evaluated. -/
theorem C1_pen_packet_witness :
    (2 : Nat) < 256 ∧ (0x10 : Nat) < 256 ∧ (0 : Nat) < 256 ∧
    callback_default true true true 0
        [0x02, 0x81, 0x01, 0x02, 0x00, 0x10, 0x04, 0x00, 0x05, 0x06] =
      ([SemanticEvent.toolState Tool.pen true,
        SemanticEvent.absAxis Axis.absX 0x0102,
        SemanticEvent.absAxis Axis.absY 0x0010,
        SemanticEvent.absAxis Axis.absPressure 16,
        SemanticEvent.absAxis Axis.absTiltX 5,
        SemanticEvent.absAxis Axis.absTiltY 6,
        SemanticEvent.touch true,
        SemanticEvent.stylusButton 0 false,
        SemanticEvent.syncBatchEnd], 0, true) := by
  refine ⟨by decide, by decide, by decide, ?_⟩
  have h := C1_pen_packet 0 0x81 0x01 0x02 0x00 0x10 0x04 0x00 0x05 0x06
    (by decide) (by decide) (by decide)
  rw [h]
  decide

/-- C2 counterexample: with previous position 0 and data byte 0x20 the raw
difference is exactly 0x20, which the claim's strict threshold leaves
uncorrected (+32) while the code corrects it to -32. -/
theorem C2_counterexample :
    (decode 0 [0x01, 0x55, 0x20, 0, 0]).2.1 ≠
      [SemanticEvent.relAxis Axis.relWheel (wheelDeltaClaim 0 0x20)] := by
  decide

/-- C2 (amended): in the wheel branch the decoder computes the raw delta,
applies the ±0x40 wrap correction exactly when the absolute delta is at
least 0x20 (the code's `abs(delta) > 0x3f/2`), emits a RelAxis wheel event
only when the corrected delta is non-zero, and the stored wheel position
ends at the new byte. -/
theorem C2_wheel_wrap : ∀ prev < 64, ∀ b < 64,
    decode prev [0x01, 0x55, b, 0, 0] =
      (DecodeResult.ok,
       if wheelDeltaSpec prev b = 0 then []
       else [SemanticEvent.relAxis Axis.relWheel (wheelDeltaSpec prev b)],
       b) :=
  decode_wheel_packet

/-- C2 witness: the claim's own example, previous=0x3e and next=0x01,
yields the small positive wrap-corrected delta +3. -/
theorem C2_wheel_wrap_witness :
    (0x3e : Nat) < 64 ∧ (0x01 : Nat) < 64 ∧
    decode 0x3e [0x01, 0x55, 0x01, 0, 0] =
      (DecodeResult.ok, [SemanticEvent.relAxis Axis.relWheel 3], 0x01) := by
  refine ⟨by decide, by decide, ?_⟩
  rw [C2_wheel_wrap 0x3e (by decide) 0x01 (by decide)]
  decide

/-- C3: decoding the same wheel byte twice in succession emits no RelAxis
event on the second decode and leaves the stored position at that byte. -/
theorem C3_wheel_idempotent : ∀ w < 64, ∀ v < 64,
    (decode (decode w [0x01, 0x55, v, 0, 0]).2.2 [0x01, 0x55, v, 0, 0]).2.1
        = [] ∧
    (decode (decode w [0x01, 0x55, v, 0, 0]).2.2 [0x01, 0x55, v, 0, 0]).2.2
        = v := by
  intro w hw v hv
  have h1 := decode_wheel_packet w hw v hv
  have h2 := decode_wheel_packet v hv v hv
  have h0 : wheelDeltaSpec v v = 0 := by simp [wheelDeltaSpec]
  rw [h0] at h2
  simp only [if_pos rfl] at h2
  rw [h1]
  simp [h2]

/-- C3 witness: feeding byte 5 twice from stored position 62. -/
theorem C3_wheel_idempotent_witness :
    (62 : Nat) < 64 ∧ (5 : Nat) < 64 ∧
    ((decode (decode 62 [0x01, 0x55, 5, 0, 0]).2.2 [0x01, 0x55, 5, 0, 0]).2.1
        = [] ∧
     (decode (decode 62 [0x01, 0x55, 5, 0, 0]).2.2 [0x01, 0x55, 5, 0, 0]).2.2
        = 5) :=
  ⟨by decide, by decide, C3_wheel_idempotent 62 (by decide) 5 (by decide)⟩

/-- C4: a packet below the minimum length of its message type (5 for
general buttons, 10 for pen, 4 for compact buttons) decodes to TooShort
with no events and an unchanged wheel position. -/
theorem C4_too_short (p : List Nat) (w : Nat) (h1 : 1 ≤ p.length)
    (h : (p.getD 0 0 = 0x01 ∧ p.length < 5) ∨
         (p.getD 0 0 = 0x02 ∧ p.length < 10) ∨
         (p.getD 0 0 = 0x0C ∧ p.length < 4)) :
    decode w p = (DecodeResult.tooShort, [], w) := by
  unfold decode
  rcases h with ⟨h0, hl⟩ | ⟨h0, hl⟩ | ⟨h0, hl⟩ <;>
    simp_all [List.getD_eq_getElem?_getD, Nat.not_lt.mpr h1]

/-- C4 witness: a 3-byte pen packet. -/
theorem C4_too_short_witness :
    1 ≤ ([0x02, 0x81, 0x00] : List Nat).length ∧
    (([0x02, 0x81, 0x00] : List Nat).getD 0 0 = 0x02 ∧
      ([0x02, 0x81, 0x00] : List Nat).length < 10) ∧
    decode 7 [0x02, 0x81, 0x00] = (DecodeResult.tooShort, [], 7) :=
  ⟨by decide, by decide,
   C4_too_short [0x02, 0x81, 0x00] 7 (by decide) (Or.inr (Or.inl (by decide)))⟩

/-- C5: an unknown first byte yields an UnknownMessageType result carrying
that byte, no events, an unchanged wheel position, and the callback still
resubmits the transfer (the outcome is non-fatal). -/
theorem C5_unknown_type (p : List Nat) (w : Nat) (h1 : 1 ≤ p.length)
    (h01 : p.getD 0 0 ≠ 0x01) (h02 : p.getD 0 0 ≠ 0x02)
    (h0C : p.getD 0 0 ≠ 0x0C) :
    decode w p = (DecodeResult.unknownMessageType (p.getD 0 0), [], w) ∧
    (callback_default true true true w p).2.2 = true := by
  refine ⟨?_, by rw [callback_default_run w p h1]⟩
  unfold decode
  simp_all [List.getD_eq_getElem?_getD, Nat.not_lt.mpr h1]

/-- C5 witness: message type 0x07. -/
theorem C5_unknown_type_witness :
    1 ≤ ([0x07, 1, 2] : List Nat).length ∧
    ([0x07, 1, 2] : List Nat).getD 0 0 ≠ 0x01 ∧
    ([0x07, 1, 2] : List Nat).getD 0 0 ≠ 0x02 ∧
    ([0x07, 1, 2] : List Nat).getD 0 0 ≠ 0x0C ∧
    (decode 3 [0x07, 1, 2] = (DecodeResult.unknownMessageType 0x07, [], 3) ∧
     (callback_default true true true 3 [0x07, 1, 2]).2.2 = true) :=
  ⟨by decide, by decide, by decide, by decide,
   C5_unknown_type [0x07, 1, 2] 3 (by decide) (by decide) (by decide)
     (by decide)⟩

/-- C6: profile lookup is a total function of the (vendor, product) pair:
each of the fifteen distinct known product IDs under the Hanvon vendor ID
maps to a profile, and every other pair maps to none. -/
theorem C6_lookup_total :
    (∀ pid ∈ knownProductIds, (lookup VENDOR_ID_HANVON pid).isSome) ∧
    (∀ v pid, v ≠ VENDOR_ID_HANVON ∨ pid ∉ knownProductIds →
        lookup v pid = none) ∧
    knownProductIds.Nodup ∧ knownProductIds.length = 15 := by
  refine ⟨by decide, ?_, by decide, by decide⟩
  intro v pid h
  unfold lookup
  rcases h with h | h
  · simp [h]
  · have hs : supported_product pid = false := by
      rw [Bool.eq_false_iff]
      intro hc
      exact h (mem_of_supported pid hc)
    simp [hs]

/-- C6 witness: an unknown vendor/product pair maps to none. -/
theorem C6_lookup_total_witness :
    ((5 : Nat) ≠ VENDOR_ID_HANVON ∨ (5 : Nat) ∉ knownProductIds) ∧
    lookup 5 5 = none :=
  ⟨Or.inl (by decide), C6_lookup_total.2.1 5 5 (Or.inl (by decide))⟩

/-- C7: an Arrival while a session is active is a no-op, and a Departure
of a device other than the one backing the active handle is a no-op. -/
theorem C7_single_session :
    (∀ env dev s, s.devHandle.isSome = true →
        hotplug_callback env HotplugEvent.arrived dev s = (s, 0)) ∧
    (∀ env dev d s, s.devHandle = some d → d ≠ dev →
        hotplug_callback env HotplugEvent.left dev s = (s, 0)) := by
  constructor
  · intro env dev s h
    simp [hotplug_callback, h]
  · intro env dev d s h hne
    simp [hotplug_callback, h, hne]

/-- C7 witness: a second arrival and a foreign departure against an active
session over device 7. -/
theorem C7_single_session_witness :
    ((GlobalState.mk (some 7) true true true 5).devHandle.isSome = true ∧
     hotplug_callback envAllOk HotplugEvent.arrived 9
        (GlobalState.mk (some 7) true true true 5) =
       (GlobalState.mk (some 7) true true true 5, 0)) ∧
    ((GlobalState.mk (some 7) true true true 5).devHandle = some 7 ∧
     (7 : Nat) ≠ 9 ∧
     hotplug_callback envAllOk HotplugEvent.left 9
        (GlobalState.mk (some 7) true true true 5) =
       (GlobalState.mk (some 7) true true true 5, 0)) :=
  ⟨⟨by decide,
    C7_single_session.1 envAllOk 9 (GlobalState.mk (some 7) true true true 5)
      (by decide)⟩,
   ⟨by decide, by decide,
    C7_single_session.2 envAllOk 9 7 (GlobalState.mk (some 7) true true true 5)
      rfl (by decide)⟩⟩

/-- C8 counterexample: when the sink-creation step fails, the other
globals are rolled back but the wheel position has already been reset to 0
by `init_ctrl`, so the state is not exactly as before the Arrival. -/
theorem C8_counterexample :
    hotplug_callback { envAllOk with initCtrlOk := false }
        HotplugEvent.arrived 7 (emptyState 3) ≠ (emptyState 3, 0) ∧
    (hotplug_callback { envAllOk with initCtrlOk := false }
        HotplugEvent.arrived 7 (emptyState 3)).1.wheelPosition = 0 := by
  decide

/-- C8 (amended): a failure at any Arrival sub-step rolls every handle
back to the Empty state and the callback returns 0 (the process keeps
running); the wheel position is restored for failures before the
sink-creation step but is left reset to 0 by `init_ctrl` for failures at
or after it. -/
theorem C8_arrival_rollback (env : ArrivalEnv) (dev w : Nat)
    (hsup : env.supported = true)
    (hfail : ¬(env.openOk = true ∧ kernel_handoff_ok env = true ∧
               env.claimOk = true ∧ env.initCtrlOk = true ∧
               env.allocOk = true ∧ env.submitOk = true)) :
    hotplug_callback env HotplugEvent.arrived dev (emptyState w) =
      ({ emptyState w with
          wheelPosition :=
            if env.openOk = true ∧ kernel_handoff_ok env = true ∧
               env.claimOk = true then 0 else w }, 0) := by
  rcases env with ⟨sup, op, ka, kc, de, cl, ic, al, su⟩
  simp only at hsup
  subst hsup
  cases op <;> cases cl <;> cases ic <;> cases al <;> cases su <;>
    simp_all [hotplug_callback, init_ctrl, emptyState, kernel_handoff_ok] <;>
    cases ka <;> cases kc <;> cases de <;> simp_all

/-- C8 witness: an interface-claim failure with leftover wheel position 3
restores the state exactly. -/
theorem C8_arrival_rollback_witness :
    ({ envAllOk with claimOk := false } : ArrivalEnv).supported = true ∧
    ¬(({ envAllOk with claimOk := false } : ArrivalEnv).openOk = true ∧
      kernel_handoff_ok { envAllOk with claimOk := false } = true ∧
      ({ envAllOk with claimOk := false } : ArrivalEnv).claimOk = true ∧
      ({ envAllOk with claimOk := false } : ArrivalEnv).initCtrlOk = true ∧
      ({ envAllOk with claimOk := false } : ArrivalEnv).allocOk = true ∧
      ({ envAllOk with claimOk := false } : ArrivalEnv).submitOk = true) ∧
    hotplug_callback { envAllOk with claimOk := false }
        HotplugEvent.arrived 7 (emptyState 3) = (emptyState 3, 0) := by
  refine ⟨by decide, by decide, ?_⟩
  rw [C8_arrival_rollback { envAllOk with claimOk := false } 7 3 (by decide)
    (by decide)]
  decide

/-- C9 counterexample: the APPIV0906 profile has the NineMixed button set,
yet the extended bits 0x10-0x80 of byte 3 produce no events: byte 0x90
decodes to the same events as byte 0x00. -/
theorem C9_counterexample :
    (Option.map DeviceProfile.buttonSet
        (lookup VENDOR_ID_HANVON PRODUCT_ID_APPIV0906) =
      some ButtonSet.nineMixed) ∧
    (decode 0 [0x0C, 0, 0, 0x90]).2.1 = (decode 0 [0x0C, 0, 0, 0x00]).2.1 ∧
    (decode 0 [0x0C, 0, 0, 0x90]).2.1 =
      [SemanticEvent.button 0 false, SemanticEvent.button 1 false,
       SemanticEvent.button 2 false, SemanticEvent.button 3 false] := by
  refine ⟨rfl, by decide, by decide⟩

/-- C9 (amended): every compact-button packet decodes bits
0x01/0x02/0x04/0x08 of byte 3 into Button events for indices 0-3; the
bits 0x10-0x80 are never decoded, for any profile (the extended NineMixed
decode exists only as commented-out source). -/
theorem C9_compact_buttons (p : List Nat) (w : Nat) (h4 : 4 ≤ p.length)
    (h0 : p.getD 0 0 = 0x0C) :
    decode w p =
      (DecodeResult.ok,
       [SemanticEvent.button 0 (p.getD 3 0 &&& 0x01 ≠ 0),
        SemanticEvent.button 1 (p.getD 3 0 &&& 0x02 ≠ 0),
        SemanticEvent.button 2 (p.getD 3 0 &&& 0x04 ≠ 0),
        SemanticEvent.button 3 (p.getD 3 0 &&& 0x08 ≠ 0)], w) := by
  unfold decode
  simp_all [List.getD_eq_getElem?_getD, decode_0906, Nat.not_lt.mpr h4,
    Nat.not_lt.mpr (by omega : 1 ≤ p.length)]

/-- C9 witness: byte 3 = 0x05 presses buttons 0 and 2. -/
theorem C9_compact_buttons_witness :
    4 ≤ ([0x0C, 0, 0, 0x05] : List Nat).length ∧
    ([0x0C, 0, 0, 0x05] : List Nat).getD 0 0 = 0x0C ∧
    decode 2 [0x0C, 0, 0, 0x05] =
      (DecodeResult.ok,
       [SemanticEvent.button 0 true, SemanticEvent.button 1 false,
        SemanticEvent.button 2 true, SemanticEvent.button 3 false], 2) := by
  refine ⟨by decide, by decide, ?_⟩
  rw [C9_compact_buttons [0x0C, 0, 0, 0x05] 2 (by decide) (by decide)]
  decide

/-- C10: with a sink present, every packet of length at least 1 produces
exactly one batch terminator, whatever its message type or length checks;
an empty packet or a null sink produces no events at all. -/
theorem C10_sync_marker (w : Nat) (p : List Nat) :
    ((callback_default true true true w p).1.countP
        (fun e => e = SemanticEvent.syncBatchEnd) =
      if 1 ≤ p.length then 1 else 0) ∧
    (callback_default true false true w p).1 = [] := by
  constructor
  · by_cases h : 1 ≤ p.length
    · rw [if_pos h, callback_default_run w p h, List.countP_append]
      have hz : (decode w p).2.1.countP
          (fun e => e = SemanticEvent.syncBatchEnd) = 0 := by
        rw [List.countP_eq_zero]
        intro a ha
        simp only [decide_eq_true_eq]
        intro heq
        exact sync_not_mem_decode w p (heq ▸ ha)
      rw [hz]
      simp
    · rw [if_neg h, callback_default_empty w p (by omega)]
      rfl
  · rw [callback_default_no_sink]

end Hanvon
